import Mathlib

/-!
Shallow embedding of the vabyanna contact-form pipeline.

Source files embedded here:
* `src/_worker.js` — the Cloudflare Worker (`ServerValidator`, `RateLimiter`,
  the retry loop and the `default.fetch` orchestration);
* `src/public/assets/js/main.js` — the client-side `FormValidator.sanitizeInput`
  and `SpamProtection.detectSpam` variants.

Modelling conventions:
* JavaScript values observed by the handler are modelled by `JSVal`
  (undefined / null / string / number / boolean); the handler never receives
  objects or arrays in the fields it inspects.
* A thrown JavaScript exception is modelled by `Except.error ()`.
* `Date.now()` is modelled by a `now : Nat` (milliseconds) passed per request,
  and `new Date().toISOString()` by a `nowISO : String` parameter.
* String `.length` and `.slice` are modelled over Unicode scalars
  (`List Char`); every input exercised by the claims is ASCII, where the two
  coincide with UTF-16 units.
* The KV counter store is modelled by `KVConfig`: an association list of
  entries with absolute expiry, plus flags that make `get`/`put` throw,
  standing for an unreachable or erroring store.
* `console.log` and the `Logger` class are not modelled: every store write in
  `Logger.logSubmission` / `Logger.logError` is wrapped in its own
  `try`/`catch` in the source, so logging can never change the HTTP outcome.
-/

namespace Vabyanna

/-- A JavaScript value as far as the contact-form handler observes one. -/
inductive JSVal where
  | undef
  | null
  | str (s : String)
  | num (n : Int)
  | boolean (b : Bool)
deriving Repr, DecidableEq

/-- JavaScript truthiness for the values modelled by `JSVal`. -/
def JSVal.truthy : JSVal → Bool
  | .undef => false
  | .null => false
  | .str s => s ≠ ""
  | .num n => n ≠ 0
  | .boolean b => b

/-- JavaScript whitespace (the `\s` class and the `trim` set): tab, line
terminators, space, NBSP, the Zs category and ZWNBSP. -/
def jsIsWhite (c : Char) : Bool :=
  [' ', '\t', '\n', '\r', '\x0b', '\x0c', '\u00A0', '\u1680', '\u2000',
   '\u2001', '\u2002', '\u2003', '\u2004', '\u2005', '\u2006', '\u2007',
   '\u2008', '\u2009', '\u200A', '\u2028', '\u2029', '\u202F', '\u205F',
   '\u3000', '\uFEFF'].contains c

/-- `String.prototype.trim` on the underlying character list. -/
def jsTrimList (l : List Char) : List Char :=
  ((l.dropWhile jsIsWhite).reverse.dropWhile jsIsWhite).reverse

/-- `String.prototype.trim`. -/
def jsTrim (s : String) : String := ⟨jsTrimList s.toList⟩

/-- `String.prototype.toLowerCase`, restricted to the ASCII mapping (all
strings exercised by the handler and by the claims are ASCII). -/
def jsToLower (s : String) : String := ⟨s.toList.map Char.toLower⟩

/-- `String.prototype.toUpperCase`, restricted to the ASCII mapping. -/
def jsToUpper (s : String) : String := ⟨s.toList.map Char.toUpper⟩

/-- `String.prototype.includes`: `pat` occurs as a contiguous substring. -/
def listHasSub (pat : List Char) : List Char → Bool
  | [] => pat.isEmpty
  | c :: rest => pat.isPrefixOf (c :: rest) || listHasSub pat rest

/-- `haystack.includes(needle)`. -/
def strIncludes (haystack needle : String) : Bool :=
  listHasSub needle.toList haystack.toList

/-- `parseInt` on a string: skip leading whitespace, optional sign, then
leading decimal digits; `none` models `NaN` (no digits found). -/
def jsParseInt (s : String) : Option Int :=
  let l := s.toList.dropWhile jsIsWhite
  let signAndRest : Int × List Char :=
    match l with
    | '-' :: r => (-1, r)
    | '+' :: r => (1, r)
    | _ => (1, l)
  let digits := signAndRest.2.takeWhile Char.isDigit
  if digits.isEmpty then none
  else some (signAndRest.1 *
    (digits.foldl (fun a c => a * 10 + (c.toNat - '0'.toNat)) 0 : Nat))

/-- `(count).toString()` for the possibly-NaN numbers flowing through the
rate limiter (`none` models `NaN`, printed as `"NaN"`). -/
def jsNumToString : Option Int → String
  | some n => toString n
  | none => "NaN"

/-! ## ServerValidator (`src/_worker.js` lines 20–158) -/

/-- `ServerValidator.isRequired`:
`value && typeof value === 'string' && value.trim().length > 0`.
A falsy or non-string value short-circuits to false; no call can throw. -/
def isRequired (v : JSVal) : Bool :=
  match v with
  | .str s => s ≠ "" && (jsTrim s).toList.length > 0
  | _ => false

/-- `ServerValidator.hasMinLength`:
`value && typeof value === 'string' && value.trim().length >= minLength`. -/
def hasMinLength (v : JSVal) (minLength : Nat) : Bool :=
  match v with
  | .str s => s ≠ "" && (jsTrim s).toList.length ≥ minLength
  | _ => false

/-- `ServerValidator.hasMaxLength`:
`!value || (typeof value === 'string' && value.trim().length <= maxLength)`. -/
def hasMaxLength (v : JSVal) (maxLength : Nat) : Bool :=
  !v.truthy ||
    (match v with
     | .str s => (jsTrim s).toList.length ≤ maxLength
     | _ => false)

/-- Whole-string match of `/^[^\s@]+@[^\s@]+\.[^\s@]+$/`: exactly one `@`,
a nonempty whitespace-free local part, and a domain part that is
whitespace-free and has a `.` that is neither its first nor last character. -/
def emailRegexTest (s : String) : Bool :=
  match s.toList.splitOn '@' with
  | [a, b] =>
    !a.isEmpty && a.all (fun c => !jsIsWhite c) && b.all (fun c => !jsIsWhite c)
      && ((b.drop 1).dropLast.contains '.')
  | _ => false

/-- `ServerValidator.isValidEmail`: falsy or non-string is invalid; otherwise
the regex is tested on the trimmed string and the untrimmed length is capped
at 254. -/
def isValidEmail (v : JSVal) : Bool :=
  match v with
  | .str s => s ≠ "" && emailRegexTest (jsTrim s) && s.toList.length ≤ 254
  | _ => false

/-- Character class `[\d\s\-\(\)]` of the server phone regex. -/
def phoneClassChar (c : Char) : Bool :=
  c.isDigit || jsIsWhite c || c = '-' || c = '(' || c = ')'

/-- Whole-string match of `/^[\+]?[\d\s\-\(\)]{7,20}$/`. -/
def phoneRegexTest (s : String) : Bool :=
  let l := s.toList
  let rest := match l with
    | '+' :: r => r
    | _ => l
  rest.all phoneClassChar && 7 ≤ rest.length && rest.length ≤ 20

/-- `ServerValidator.isValidPhone`. The source reads:
`if (!phone || phone.trim().length === 0) return true;`
`if (typeof phone !== 'string') return false;`
`return phoneRegex.test(phone.trim());`
For a truthy non-string value, `phone.trim()` on the first line throws a
TypeError before the `typeof` guard is reached — modelled by `.error ()`. -/
def isValidPhone (v : JSVal) : Except Unit Bool :=
  if !v.truthy then .ok true
  else
    match v with
    | .str s =>
      if (jsTrim s).toList.length = 0 then .ok true
      else .ok (phoneRegexTest (jsTrim s))
    | _ => .error ()

/-- One global single-character regex replacement, `s.replace(/c/g, r)`. -/
def jsReplaceChar (c : Char) (r : List Char) : List Char → List Char
  | [] => []
  | x :: xs => (if x = c then r else [x]) ++ jsReplaceChar c r xs

/-- `ServerValidator.sanitizeInput`: falsy or non-string becomes `''`;
otherwise trim, then the six global replacements in source order
(`<`, `>`, `"`, `'`, `/`, `\`), then `.slice(0, 10000)`. -/
def sanitizeInput (v : JSVal) : String :=
  match v with
  | .str s =>
    if s = "" then ""
    else
      let l0 := jsTrimList s.toList
      let l1 := jsReplaceChar '<' "&lt;".toList l0
      let l2 := jsReplaceChar '>' "&gt;".toList l1
      let l3 := jsReplaceChar '"' "&quot;".toList l2
      let l4 := jsReplaceChar '\'' "&#x27;".toList l3
      let l5 := jsReplaceChar '/' "&#x2F;".toList l4
      let l6 := jsReplaceChar '\\' "&#x5C;".toList l5
      ⟨l6.take 10000⟩
  | _ => ""

/-- `FormValidator.sanitizeInput` (client variant, `main.js` lines 629–637):
falsy becomes `''`; otherwise trim and the five replacements — no backslash
replacement and no `.slice` truncation. -/
def clientSanitizeInput (s : String) : String :=
  if s = "" then ""
  else
    let l0 := jsTrimList s.toList
    let l1 := jsReplaceChar '<' "&lt;".toList l0
    let l2 := jsReplaceChar '>' "&gt;".toList l1
    let l3 := jsReplaceChar '"' "&quot;".toList l2
    let l4 := jsReplaceChar '\'' "&#x27;".toList l3
    let l5 := jsReplaceChar '/' "&#x2F;".toList l4
    ⟨l5⟩

/-! ## validateContactForm (`src/_worker.js` lines 95–158) -/

/-- The five form fields as the handler reads them off the parsed body;
a key absent from the JavaScript object reads as `undefined`. -/
structure FormData where
  firstName : JSVal
  lastName : JSVal
  email : JSVal
  phone : JSVal
  message : JSVal
deriving Repr, DecidableEq

/-- The `sanitizedData` object: each field is present (`some`) exactly when
its success branch in the source assigned it; `timestamp` and `source` are
assigned unconditionally at the end. -/
structure SanitizedData where
  firstName : Option String
  lastName : Option String
  email : Option String
  phone : Option String
  message : Option String
  timestamp : String
  source : String
deriving Repr, DecidableEq

/-- The object returned by `validateContactForm`. -/
structure VResult where
  isValid : Bool
  errors : List String
  data : SanitizedData
deriving Repr, DecidableEq

/-- Errors pushed by the firstName block (required / min 2 / max 50,
later checks only evaluated when the earlier ones passed). -/
def firstNameErrors (d : FormData) : List String :=
  if !isRequired d.firstName then ["First name is required"]
  else if !hasMinLength d.firstName 2 then
    ["First name must be at least 2 characters long"]
  else if !hasMaxLength d.firstName 50 then
    ["First name must be less than 50 characters"]
  else []

/-- `sanitizedData.firstName`, assigned only on the all-checks-pass branch. -/
def firstNameSanitized (d : FormData) : Option String :=
  if !isRequired d.firstName then none
  else if !hasMinLength d.firstName 2 then none
  else if !hasMaxLength d.firstName 50 then none
  else some (sanitizeInput d.firstName)

/-- Errors pushed by the lastName block (required / min 2 / max 50). -/
def lastNameErrors (d : FormData) : List String :=
  if !isRequired d.lastName then ["Last name is required"]
  else if !hasMinLength d.lastName 2 then
    ["Last name must be at least 2 characters long"]
  else if !hasMaxLength d.lastName 50 then
    ["Last name must be less than 50 characters"]
  else []

/-- `sanitizedData.lastName`, assigned only on the all-checks-pass branch. -/
def lastNameSanitized (d : FormData) : Option String :=
  if !isRequired d.lastName then none
  else if !hasMinLength d.lastName 2 then none
  else if !hasMaxLength d.lastName 50 then none
  else some (sanitizeInput d.lastName)

/-- Errors pushed by the email block (required / format). -/
def emailErrors (d : FormData) : List String :=
  if !isRequired d.email then ["Email is required"]
  else if !isValidEmail d.email then ["Please enter a valid email address"]
  else []

/-- `sanitizedData.email = sanitizeInput(data.email).toLowerCase()`,
assigned only on the all-checks-pass branch. -/
def emailSanitized (d : FormData) : Option String :=
  if !isRequired d.email then none
  else if !isValidEmail d.email then none
  else some (jsToLower (sanitizeInput d.email))

/-- Errors pushed by the message block (required / min 10 / max 5000). -/
def messageErrors (d : FormData) : List String :=
  if !isRequired d.message then ["Message is required"]
  else if !hasMinLength d.message 10 then
    ["Message must be at least 10 characters long"]
  else if !hasMaxLength d.message 5000 then
    ["Message must be less than 5000 characters"]
  else []

/-- `sanitizedData.message`, assigned only on the all-checks-pass branch. -/
def messageSanitized (d : FormData) : Option String :=
  if !isRequired d.message then none
  else if !hasMinLength d.message 10 then none
  else if !hasMaxLength d.message 5000 then none
  else some (sanitizeInput d.message)

/-- The phone block:
`if (data.phone && !this.isValidPhone(data.phone)) { errors.push(...) }`
`else { sanitizedData.phone = this.sanitizeInput(data.phone || ''); }`.
The `isValidPhone` call can throw (truthy non-string phone), which aborts
the whole of `validateContactForm`. -/
def phoneCheck (d : FormData) : Except Unit (List String × Option String) :=
  if d.phone.truthy then
    match isValidPhone d.phone with
    | .error e => .error e
    | .ok valid =>
      if !valid then .ok (["Please enter a valid phone number"], none)
      else .ok ([], some (sanitizeInput d.phone))
  else .ok ([], some (sanitizeInput (.str "")))

/-- `ServerValidator.validateContactForm`. The five field blocks run in
source order, each appending its errors to the shared `errors` array; the
metadata fields `timestamp` / `source` are assigned unconditionally; the
result is `isValid: errors.length === 0`. A TypeError thrown inside the
phone block propagates out of the function (`.error`). -/
def validateContactForm (d : FormData) (nowISO : String) : Except Unit VResult :=
  match phoneCheck d with
  | .error e => .error e
  | .ok phone =>
    let errors := firstNameErrors d ++ lastNameErrors d ++ emailErrors d
      ++ phone.1 ++ messageErrors d
    .ok
      { isValid := errors.length == 0
        errors := errors
        data :=
          { firstName := firstNameSanitized d
            lastName := lastNameSanitized d
            email := emailSanitized d
            phone := phone.2
            message := messageSanitized d
            timestamp := nowISO
            source := "website_contact_form" } }

/-! ## Spam heuristics (`src/_worker.js` lines 222–238 and
`main.js` lines 798–828) -/

/-- Count of `/https?:\/\//g` matches: at each position try `https://` then
`http://` (the optional `s` is tried greedily first); a match is consumed
whole, a non-match advances one character. The skip counter carries the
characters of the current match still to be consumed. -/
def countLinksAux : List Char → Nat → Nat
  | [], _ => 0
  | _ :: rest, skip + 1 => countLinksAux rest skip
  | c :: rest, 0 =>
    if "https://".toList.isPrefixOf (c :: rest) then
      1 + countLinksAux rest 7
    else if "http://".toList.isPrefixOf (c :: rest) then
      1 + countLinksAux rest 6
    else countLinksAux rest 0

/-- `(message.match(/https?:\/\//g) || []).length`. -/
def countLinks (l : List Char) : Nat := countLinksAux l 0

/-- A character the regex `.` does not match (JavaScript line terminators). -/
def isLineTerm (c : Char) : Bool :=
  c = '\n' || c = '\r' || c = '\u2028' || c = '\u2029'

/-- Test of `/(.)\1{10,}/`: some non-line-terminator character is followed by
ten or more consecutive copies of itself (a run of length at least 11). -/
def hasLongRun : List Char → Bool
  | [] => false
  | c :: rest =>
    (!isLineTerm c && (rest.takeWhile (fun x => x = c)).length ≥ 10)
      || hasLongRun rest

/-- The server-side keyword list. -/
def spamKeywords : List String :=
  ["viagra", "casino", "lottery", "winner", "congratulations", "click here",
   "free money"]

/-- `RateLimiter.detectSpam` (`src/_worker.js` lines 222–238). Note that the
source lower-cases the message once at the top and every later signal —
including the `hasAllCaps` comparison — runs on that lower-cased string. -/
def detectSpam (formData : SanitizedData) : Bool :=
  let message := jsToLower (formData.message.getD "")
  let hasSpamKeywords := spamKeywords.any (fun k => strIncludes message k)
  let linkCount := countLinks message.toList
  let hasExcessiveLinks := linkCount > 2
  let hasRepeatedChars := hasLongRun message.toList
  let hasAllCaps := message.toList.length > 20 && message == jsToUpper message
  hasSpamKeywords || hasExcessiveLinks || hasRepeatedChars || hasAllCaps

/-- The client-side keyword list (`main.js` lines 804–808). -/
def clientSpamKeywords : List String :=
  ["viagra", "casino", "lottery", "winner", "congratulations",
   "click here", "free money", "make money fast", "work from home",
   "guaranteed income", "no experience required", "act now"]

/-- Count of `/https?:\/\/[^\s]+/g` matches on the original-case message:
after the scheme at least one non-whitespace character is required, and the
greedy `[^\s]+` consumes the maximal non-whitespace run. -/
def countClientLinksAux : List Char → Nat → Nat
  | [], _ => 0
  | _ :: rest, skip + 1 => countClientLinksAux rest skip
  | c :: rest, 0 =>
    if "https://".toList.isPrefixOf (c :: rest) then
      let run := ((rest.drop 7).takeWhile (fun x => !jsIsWhite x)).length
      if run ≥ 1 then 1 + countClientLinksAux rest (7 + run)
      else countClientLinksAux rest 0
    else if "http://".toList.isPrefixOf (c :: rest) then
      let run := ((rest.drop 6).takeWhile (fun x => !jsIsWhite x)).length
      if run ≥ 1 then 1 + countClientLinksAux rest (6 + run)
      else countClientLinksAux rest 0
    else countClientLinksAux rest 0

/-- `(message.match(/https?:\/\/[^\s]+/g) || []).length`. -/
def countClientLinks (l : List Char) : Nat := countClientLinksAux l 0

/-- Character class `[a-zA-Z0-9._%+-]` (local part of the email regex). -/
def emailLocalChar (c : Char) : Bool :=
  c.isAlphanum || c = '.' || c = '_' || c = '%' || c = '+' || c = '-'

/-- Character class `[a-zA-Z0-9.-]` (domain part of the email regex). -/
def emailDomChar (c : Char) : Bool :=
  c.isAlphanum || c = '.' || c = '-'

/-- Backtracking step of `[a-zA-Z0-9.-]+\.[a-zA-Z]{2,}`: the rightmost dot
position `j ≥ 1` inside the greedy domain run such that at least two letters
follow it; returns the dot index and the greedy letter-run length. -/
def emailDotSplit (dom : List Char) : Option (Nat × Nat) :=
  (List.range dom.length).reverse.findSome? (fun j =>
    if 1 ≤ j ∧ dom.getD j ' ' = '.' then
      let run := ((dom.drop (j + 1)).takeWhile Char.isAlpha).length
      if run ≥ 2 then some (j, run) else none
    else none)

/-- Length of a `/[a-zA-Z0-9._%+-]+@[a-zA-Z0-9.-]+\.[a-zA-Z]{2,}/` match
starting exactly at the head of `l`, if any: the greedy local-part run, a
literal `@`, then the domain with its backtracked final `.letters` group. -/
def tryEmailLen (l : List Char) : Option Nat :=
  let lp := l.takeWhile emailLocalChar
  if lp.isEmpty then none
  else
    match l.drop lp.length with
    | '@' :: r2 =>
      let dom := r2.takeWhile emailDomChar
      match emailDotSplit dom with
      | some (j, run) => some (lp.length + 1 + j + 1 + run)
      | none => none
    | _ => none

/-- Count of email-pattern matches: a match is consumed whole, a non-match
advances one character (the skip counter carries consumed characters). -/
def countEmailsAux : List Char → Nat → Nat
  | [], _ => 0
  | _ :: rest, skip + 1 => countEmailsAux rest skip
  | c :: rest, 0 =>
    match tryEmailLen (c :: rest) with
    | some n => 1 + countEmailsAux rest (n - 1)
    | none => countEmailsAux rest 0

/-- `(message.match(emailRegex) || []).length` for the client spam check. -/
def countEmails (l : List Char) : Nat := countEmailsAux l 0

/-- `SpamProtection.detectSpam` (`main.js` lines 798–828): the keyword scan
runs on the lower-cased message, but the link / repetition / all-caps /
digit / email signals run on the original message. The digit-share test
`digits > message.length * 0.3` is modelled by the exact rational comparison
`digits * 10 > length * 3`. -/
def clientDetectSpam (v : JSVal) : Bool :=
  match v with
  | .str s =>
    if s = "" then false
    else
      let lowerMessage := jsToLower s
      let hasSpamKeywords :=
        clientSpamKeywords.any (fun k => strIncludes lowerMessage k)
      let linkCount := countClientLinks s.toList
      let hasExcessiveLinks := linkCount > 2
      let hasRepeatedChars := hasLongRun s.toList
      let hasAllCaps := s.toList.length > 20 && s == jsToUpper s
      let digitCount := (s.toList.filter Char.isDigit).length
      let hasExcessiveNumbers := digitCount * 10 > s.toList.length * 3
      let emailCount := countEmails s.toList
      let hasMultipleEmails := emailCount > 1
      hasSpamKeywords || hasExcessiveLinks || hasRepeatedChars || hasAllCaps
        || hasExcessiveNumbers || hasMultipleEmails
  | _ => false

/-! ## RateLimiter.checkRateLimit (`src/_worker.js` lines 174–215) -/

/-- One stored KV value together with its absolute expiry (ms epoch),
as produced by `put(key, value, { expirationTtl })`. -/
structure KVEntry where
  value : String
  expireAt : Nat
deriving Repr, DecidableEq

/-- The external KV collaborator: its entries, plus flags that make a `get`
or a `put` throw (an unreachable or erroring store). -/
structure KVConfig where
  entries : List (String × KVEntry)
  getFails : Bool
  putFails : Bool
deriving Repr, DecidableEq

/-- Lookup of a key among the stored entries. -/
def kvLookup (es : List (String × KVEntry)) (k : String) : Option KVEntry :=
  (es.find? (fun p => p.1 == k)).map (fun p => p.2)

/-- `RATE_LIMIT_KV.get(key)`: throws when the store errors; an expired entry
reads as `null`. -/
def kvGet (kv : KVConfig) (now : Nat) (k : String) : Except Unit (Option String) :=
  if kv.getFails then .error ()
  else
    .ok (match kvLookup kv.entries k with
      | some e => if now < e.expireAt then some e.value else none
      | none => none)

/-- `RATE_LIMIT_KV.put(key, value, { expirationTtl: ttlSec })`: throws when
the store errors; otherwise replaces the entry with expiry `now + ttl`. -/
def kvPut (kv : KVConfig) (now : Nat) (k v : String) (ttlSec : Nat) :
    Except Unit KVConfig :=
  if kv.putFails then .error ()
  else
    .ok { kv with
      entries := (k, ⟨v, now + ttlSec * 1000⟩)
        :: kv.entries.filter (fun p => !(p.1 == k)) }

/-- The object returned by `checkRateLimit`; `remaining : Option Int` uses
`none` for `NaN` (a non-numeric stored counter). -/
structure RLResult where
  allowed : Bool
  remaining : Option Int
  resetTime : Nat
deriving Repr, DecidableEq

/-- The rate-limit key `rate_limit:${clientIP}`; a missing
`CF-Connecting-IP` header falls back to `'unknown'`. -/
def rlKey (clientIP : Option String) : String :=
  "rate_limit:" ++ clientIP.getD "unknown"

/-- `RateLimiter.checkRateLimit`. The `try` block reads the counter (`null`
without a KV binding), takes `count = currentCount ? parseInt(currentCount) : 0`,
rejects with `remaining: 0` and `resetTime = now + 1h` once `count >= 5`,
and otherwise re-puts `count + 1` with a fresh one-hour TTL. Any store error
is caught and the limiter fails open with `remaining: 4`. Returns the result
together with the store state after the call. -/
def checkRateLimit (clientIP : Option String) (kv : Option KVConfig)
    (now : Nat) : RLResult × Option KVConfig :=
  let rateLimitKey := rlKey clientIP
  let failOpen : RLResult × Option KVConfig :=
    ({ allowed := true, remaining := some 4, resetTime := now + 3600000 }, kv)
  match kv with
  | none =>
    -- no KV binding: currentCount is null, count = 0, no put is attempted
    ({ allowed := true, remaining := some (5 - 0 - 1),
       resetTime := now + 3600000 }, none)
  | some cfg =>
    match kvGet cfg now rateLimitKey with
    | .error _ => failOpen
    | .ok currentCount =>
      let count : Option Int :=
        match currentCount with
        | some s => if s = "" then some 0 else jsParseInt s
        | none => some 0
      if (match count with | some n => decide (n ≥ 5) | none => false) then
        ({ allowed := false, remaining := some 0,
           resetTime := now + 3600000 }, some cfg)
      else
        match kvPut cfg now rateLimitKey
            (jsNumToString (count.map (fun n => n + 1))) 3600 with
        | .error _ => failOpen
        | .ok cfg' =>
          ({ allowed := true, remaining := count.map (fun n => 5 - n - 1),
             resetTime := now + 3600000 }, some cfg')

/-! ## Email delivery retry loop (`src/_worker.js` lines 552–575) -/

/-- Outcome of the retry loop: whether a send succeeded, the number of
outbound provider calls made, and the backoff waits (ms) between attempts. -/
structure EmailOutcome where
  sent : Bool
  calls : Nat
  waits : List Nat
deriving Repr, DecidableEq

/-- The `while (retryCount <= maxRetries)` loop with `maxRetries = 2`.
`provider i` tells whether the `i`-th outbound call (0-based) succeeds.
`budget` counts the loop iterations still permitted by the guard
(`budget = maxRetries + 1 - retryCount`, so the loop is entered with 3);
on failure `retryCount` is incremented first, the loop rethrows once
`retryCount > maxRetries`, and otherwise sleeps
`Math.pow(2, retryCount) * 1000` milliseconds before the next attempt. -/
def retryGo (provider : Nat → Bool) :
    Nat → Nat → Nat → List Nat → EmailOutcome
  | 0, _, calls, waits => ⟨true, calls, waits⟩
  | budget + 1, retryCount, calls, waits =>
    if provider calls then ⟨true, calls + 1, waits⟩
    else if retryCount + 1 > 2 then ⟨false, calls + 1, waits⟩
    else retryGo provider budget (retryCount + 1) (calls + 1)
      (waits ++ [2 ^ (retryCount + 1) * 1000])

/-- The retry loop as entered by the handler: `retryCount = 0`, no calls yet. -/
def emailRetryLoop (provider : Nat → Bool) : EmailOutcome :=
  retryGo provider 3 0 0 []

/-! ## The main fetch handler (`src/_worker.js` lines 411–617) -/

/-- The inbound request as far as the handler inspects it. `jsonBody` /
`formBody` are the results of `request.json()` / `request.formData()`
(`.error ()` models a parse throw). -/
structure ReqModel where
  method : String
  url : String
  contentLength : Option String
  contentType : Option String
  clientIP : Option String
  jsonBody : Except Unit FormData
  formBody : Except Unit FormData

/-- The environment bindings the handler reads. -/
structure Env where
  resendApiKey : Option String
  rateLimitKV : Option KVConfig

/-- A JSON response body `{success, message, errors?, retryAfter?}`;
absent fields are `[]` / `none`. -/
structure RespBody where
  success : Bool
  message : String
  errors : List String
  retryAfter : Option Nat
deriving Repr, DecidableEq

/-- The observable outcome of one handler invocation: HTTP status, JSON body
(`none` for the bodyless OPTIONS / plain-text 404 responses), the
`Retry-After` header, the number of outbound email calls with their backoff
waits, and the KV store state afterwards. -/
structure HResp where
  status : Nat
  body : Option RespBody
  retryAfterHeader : Option String
  emailCalls : Nat
  waits : List Nat
  kvAfter : Option KVConfig

/-- The 10KB size gate:
`contentLength && parseInt(contentLength) > 10240`. -/
def sizeExceeded (req : ReqModel) : Bool :=
  match req.contentLength with
  | some s =>
    s ≠ "" && (match jsParseInt s with | some n => n > 10240 | none => false)
  | none => false

/-- Body parsing per declared content type; an unsupported type or a parse
throw becomes `.error` (caught by the handler as a 400). -/
def parseBody (req : ReqModel) : Except Unit FormData :=
  let contentType := req.contentType.getD ""
  if strIncludes contentType "application/json" then req.jsonBody
  else if strIncludes contentType "application/x-www-form-urlencoded" then
    req.formBody
  else .error ()

/-- The generic 500 body produced by the outer catch. -/
def internalErrorBody : RespBody :=
  ⟨false, "Internal server error. Please try again later.", [], none⟩

/-- `default.fetch`: CORS preflight, method/route gate, size gate, rate
limit (429 with `Retry-After` equal to
`Math.ceil((resetTime - Date.now()) / 1000)`), body parse (400), validation
(400, or 500 when `validateContactForm` itself throws), the
silent-success spam branch, the missing-credential throw (500 via the outer
catch), and the delivery retry loop (200 on success, 500 once the retries
are exhausted). `Date.now()` is modelled as the single instant `now`. -/
def handleFetch (req : ReqModel) (env : Env) (now : Nat) (nowISO : String)
    (provider : Nat → Bool) : HResp :=
  if req.method = "OPTIONS" then
    ⟨200, none, none, 0, [], env.rateLimitKV⟩
  else if req.method ≠ "POST" || !strIncludes req.url "/api/contact" then
    ⟨404, none, none, 0, [], env.rateLimitKV⟩
  else if sizeExceeded req then
    ⟨413, some ⟨false, "Request too large", [], none⟩, none, 0, [],
      env.rateLimitKV⟩
  else if !(checkRateLimit req.clientIP env.rateLimitKV now).1.allowed then
    ⟨429,
      some ⟨false, "Too many requests. Please try again later.", [],
        some (((checkRateLimit req.clientIP env.rateLimitKV now).1.resetTime
          - now + 999) / 1000)⟩,
      some (toString (((checkRateLimit req.clientIP env.rateLimitKV
          now).1.resetTime - now + 999) / 1000)),
      0, [], (checkRateLimit req.clientIP env.rateLimitKV now).2⟩
  else
    match parseBody req with
    | .error _ =>
      ⟨400, some ⟨false, "Invalid request format", [], none⟩, none, 0, [],
        (checkRateLimit req.clientIP env.rateLimitKV now).2⟩
    | .ok formData =>
      match validateContactForm formData nowISO with
      | .error _ =>
        -- the TypeError from the phone block reaches the outer catch
        ⟨500, some internalErrorBody, none, 0, [],
          (checkRateLimit req.clientIP env.rateLimitKV now).2⟩
      | .ok validation =>
        if !validation.isValid then
          ⟨400, some ⟨false, "Validation failed", validation.errors, none⟩,
            none, 0, [], (checkRateLimit req.clientIP env.rateLimitKV now).2⟩
        else if detectSpam validation.data then
          ⟨200, some ⟨true, "Message received successfully", [], none⟩,
            none, 0, [], (checkRateLimit req.clientIP env.rateLimitKV now).2⟩
        else
          match env.resendApiKey with
          | none =>
            -- `throw new Error('Email service not configured')` → catch → 500
            ⟨500, some internalErrorBody, none, 0, [],
              (checkRateLimit req.clientIP env.rateLimitKV now).2⟩
          | some _ =>
            if (emailRetryLoop provider).sent then
              ⟨200, some ⟨true, "Message sent successfully", [], none⟩,
                none, (emailRetryLoop provider).calls,
                (emailRetryLoop provider).waits,
                (checkRateLimit req.clientIP env.rateLimitKV now).2⟩
            else
              ⟨500, some internalErrorBody, none,
                (emailRetryLoop provider).calls,
                (emailRetryLoop provider).waits,
                (checkRateLimit req.clientIP env.rateLimitKV now).2⟩

/-! ## Derived views of the rate limiter, used to state hypotheses -/

/-- The `count` value the `try` block computes from the store contents at
`now` (independent of the failure flags):
`currentCount ? parseInt(currentCount) : 0`. -/
def rlStoredCount (cfg : KVConfig) (now : Nat) (k : String) : Option Int :=
  match (match kvLookup cfg.entries k with
         | some e => if now < e.expireAt then some e.value else none
         | none => none) with
  | some s => if s = "" then some 0 else jsParseInt s
  | none => some 0

/-- Whether `count >= maxRequests` is false, i.e. the branch that attempts
the `put` is taken (`none`, i.e. `NaN`, compares false against 5). -/
def rlCountBelowMax (c : Option Int) : Bool :=
  match c with
  | some n => decide (n < 5)
  | none => true

/-! ## Concrete inputs used by the witnesses and counterexamples -/

/-- A well-formed, non-spam submission (the end-to-end example of the spec). -/
def goodForm : FormData :=
  { firstName := .str "Ann", lastName := .str "Lee",
    email := .str "ann@example.com", phone := .undef,
    message := .str "Hello, I would like to book a call please." }

/-- A submission with every field absent. -/
def emptyForm : FormData :=
  { firstName := .undef, lastName := .undef, email := .undef,
    phone := .undef, message := .undef }

/-- A submission whose phone field is the number `5551234`. -/
def badPhoneForm : FormData :=
  { firstName := .str "John", lastName := .str "Doe",
    email := .str "john@example.com", phone := .num 5551234,
    message := .str "Hello there my friend" }

/-- A valid submission whose message contains the keyword `free money`. -/
def spamForm : FormData :=
  { firstName := .str "John", lastName := .str "Doe",
    email := .str "john@example.com", phone := .undef,
    message := .str "I will give you free money today my friend" }

/-- A valid submission whose message is 25 characters, all upper-case
letters, with no repeated run, keyword or link. -/
def capsForm : FormData :=
  { firstName := .str "John", lastName := .str "Doe",
    email := .str "john@example.com", phone := .undef,
    message := .str "ABCDEFGHIJKLMNOPQRSTUVWXY" }

/-- A JSON POST to the contact route carrying `goodForm`. -/
def goodReq : ReqModel :=
  { method := "POST", url := "https://www.vabyanna.com/api/contact",
    contentLength := none, contentType := some "application/json",
    clientIP := some "203.0.113.7", jsonBody := .ok goodForm,
    formBody := .error () }

/-- The same POST carrying `spamForm`. -/
def spamReq : ReqModel := { goodReq with jsonBody := .ok spamForm }

/-- The same POST carrying `capsForm`. -/
def capsReq : ReqModel := { goodReq with jsonBody := .ok capsForm }

/-- The same POST carrying `emptyForm`. -/
def emptyReq : ReqModel := { goodReq with jsonBody := .ok emptyForm }

/-- An environment with a credential and no KV store bound. -/
def envNoKV : Env := { resendApiKey := some "re_key", rateLimitKV := none }

/-- A store holding the counter at 5 for `goodReq`'s address: the window was
opened by a `put` at time 0 with a one-hour TTL, so it expires at
3 600 000 ms. -/
def cfgAtLimit : KVConfig :=
  { entries := [("rate_limit:203.0.113.7", ⟨"5", 3600000⟩)],
    getFails := false, putFails := false }

/-- An unreachable store: every `get` throws. -/
def cfgUnreachable : KVConfig :=
  { entries := [], getFails := true, putFails := false }

/-- An environment whose store already holds the counter at the limit. -/
def envAtLimit : Env :=
  { resendApiKey := some "re_key", rateLimitKV := some cfgAtLimit }

/-- An environment with an unreachable counter store. -/
def envUnreachable : Env :=
  { resendApiKey := some "re_key", rateLimitKV := some cfgUnreachable }

/-- An environment with no email credential configured. -/
def envNoKey : Env := { resendApiKey := none, rateLimitKV := none }

/-- The validation result for `goodForm` at the fixed test instant. -/
def goodValidated : VResult :=
  { isValid := true, errors := [],
    data := { firstName := some "Ann", lastName := some "Lee",
              email := some "ann@example.com", phone := some "",
              message := some "Hello, I would like to book a call please.",
              timestamp := "2026-01-01T00:00:00.000Z",
              source := "website_contact_form" } }

/-- The validation result for `spamForm` at the fixed test instant. -/
def spamValidated : VResult :=
  { isValid := true, errors := [],
    data := { firstName := some "John", lastName := some "Doe",
              email := some "john@example.com", phone := some "",
              message :=
                some "I will give you free money today my friend",
              timestamp := "2026-01-01T00:00:00.000Z",
              source := "website_contact_form" } }

/-- The validation result for `emptyForm` at the fixed test instant. -/
def emptyValidated : VResult :=
  { isValid := false,
    errors := ["First name is required", "Last name is required",
               "Email is required", "Message is required"],
    data := { firstName := none, lastName := none, email := none,
              phone := some "", message := none,
              timestamp := "2026-01-01T00:00:00.000Z",
              source := "website_contact_form" } }

/-! ## Helper lemmas shared by several claims -/

/-- A provider that fails on the first three calls drives the retry loop to
three outbound calls with 2 s and 4 s backoff waits and a surfaced failure. -/
theorem emailRetryLoop_allFail (provider : Nat → Bool)
    (h0 : provider 0 = false) (h1 : provider 1 = false)
    (h2 : provider 2 = false) :
    emailRetryLoop provider = ⟨false, 3, [2000, 4000]⟩ := by
  simp [emailRetryLoop, retryGo, h0, h1, h2]

/-- When the stored counter is readable, unexpired and parses to at least 5,
`checkRateLimit` rejects with `remaining = 0` and a reset time one hour from
`now`, leaving the store untouched. -/
theorem crl_reject (clientIP : Option String) (now : Nat)
    (cfg : KVConfig) (e : KVEntry) (n : Int)
    (hgf : cfg.getFails = false)
    (hlook : kvLookup cfg.entries (rlKey clientIP) = some e)
    (hexp : now < e.expireAt)
    (hparse : jsParseInt e.value = some n)
    (hne : e.value ≠ "")
    (hge : (5 : Int) ≤ n) :
    checkRateLimit clientIP (some cfg) now =
      (⟨false, some 0, now + 3600000⟩, some cfg) := by
  simp [checkRateLimit, kvGet, hgf, hlook, hexp, hne, hparse,
    decide_eq_true hge]

/-- Every error the firstName block can push. -/
theorem mem_firstNameErrors {d : FormData} {x : String}
    (hx : x ∈ firstNameErrors d) :
    x = "First name is required" ∨
    x = "First name must be at least 2 characters long" ∨
    x = "First name must be less than 50 characters" := by
  unfold firstNameErrors at hx
  split_ifs at hx <;> simp_all

/-- Every error the lastName block can push. -/
theorem mem_lastNameErrors {d : FormData} {x : String}
    (hx : x ∈ lastNameErrors d) :
    x = "Last name is required" ∨
    x = "Last name must be at least 2 characters long" ∨
    x = "Last name must be less than 50 characters" := by
  unfold lastNameErrors at hx
  split_ifs at hx <;> simp_all

/-- Every error the email block can push. -/
theorem mem_emailErrors {d : FormData} {x : String}
    (hx : x ∈ emailErrors d) :
    x = "Email is required" ∨ x = "Please enter a valid email address" := by
  unfold emailErrors at hx
  split_ifs at hx <;> simp_all

/-- Every error the message block can push. -/
theorem mem_messageErrors {d : FormData} {x : String}
    (hx : x ∈ messageErrors d) :
    x = "Message is required" ∨
    x = "Message must be at least 10 characters long" ∨
    x = "Message must be less than 5000 characters" := by
  unfold messageErrors at hx
  split_ifs at hx <;> simp_all

/-- Every error the phone block can push (when it does not throw). -/
theorem mem_phoneCheck_errs {d : FormData} {p : List String × Option String}
    {x : String} (hpc : phoneCheck d = .ok p) (hx : x ∈ p.1) :
    x = "Please enter a valid phone number" := by
  unfold phoneCheck at hpc
  split_ifs at hpc
  · cases hiv : isValidPhone d.phone with
    | error e => rw [hiv] at hpc; cases hpc
    | ok valid =>
      simp only [hiv] at hpc
      split_ifs at hpc <;>
        (injection hpc with hp; subst hp; simp_all)
  · injection hpc with hp; subst hp; simp_all

/-- A string absent from a list is counted zero times. -/
theorem count_zero_of_ne (l : List String) (a : String)
    (h : ∀ x ∈ l, x ≠ a) : l.count a = 0 :=
  List.count_eq_zero.mpr (fun hmem => h a hmem rfl)

/-- The firstName block never pushes a foreign message. -/
theorem count_firstNameErrors_zero (d : FormData) (a : String)
    (h : ¬(a = "First name is required" ∨
      a = "First name must be at least 2 characters long" ∨
      a = "First name must be less than 50 characters")) :
    (firstNameErrors d).count a = 0 :=
  count_zero_of_ne _ _ (fun _x hx hxa => h (hxa ▸ mem_firstNameErrors hx))

/-- The lastName block never pushes a foreign message. -/
theorem count_lastNameErrors_zero (d : FormData) (a : String)
    (h : ¬(a = "Last name is required" ∨
      a = "Last name must be at least 2 characters long" ∨
      a = "Last name must be less than 50 characters")) :
    (lastNameErrors d).count a = 0 :=
  count_zero_of_ne _ _ (fun _x hx hxa => h (hxa ▸ mem_lastNameErrors hx))

/-- The email block never pushes a foreign message. -/
theorem count_emailErrors_zero (d : FormData) (a : String)
    (h : ¬(a = "Email is required" ∨
      a = "Please enter a valid email address")) :
    (emailErrors d).count a = 0 :=
  count_zero_of_ne _ _ (fun _x hx hxa => h (hxa ▸ mem_emailErrors hx))

/-- The message block never pushes a foreign message. -/
theorem count_messageErrors_zero (d : FormData) (a : String)
    (h : ¬(a = "Message is required" ∨
      a = "Message must be at least 10 characters long" ∨
      a = "Message must be less than 5000 characters")) :
    (messageErrors d).count a = 0 :=
  count_zero_of_ne _ _ (fun _x hx hxa => h (hxa ▸ mem_messageErrors hx))

/-- The phone block never pushes a foreign message. -/
theorem count_phoneCheck_errs_zero {d : FormData}
    {p : List String × Option String} (hpc : phoneCheck d = .ok p)
    (a : String) (h : ¬a = "Please enter a valid phone number") :
    p.1.count a = 0 :=
  count_zero_of_ne _ _
    (fun _x hx hxa => h (hxa ▸ mem_phoneCheck_errs hpc hx))

/-- Characters of a replacement output come either from the replacement
string or from the input minus the replaced character. -/
theorem mem_jsReplaceChar {c : Char} {r l : List Char} {x : Char}
    (hx : x ∈ jsReplaceChar c r l) : x ∈ r ∨ (x ∈ l ∧ x ≠ c) := by
  induction l with
  | nil => simp [jsReplaceChar] at hx
  | cons y ys ih =>
    simp only [jsReplaceChar] at hx
    rcases List.mem_append.mp hx with h1 | h2
    · by_cases hyc : y = c
      · rw [if_pos hyc] at h1
        exact .inl h1
      · rw [if_neg hyc] at h1
        simp only [List.mem_singleton] at h1
        subst h1
        exact .inr ⟨List.mem_cons_self x ys, hyc⟩
    · rcases ih h2 with h | ⟨hl, hc⟩
      · exact .inl h
      · exact .inr ⟨List.mem_cons_of_mem y hl, hc⟩

/-- dropWhile is the identity when the predicate fails on every element. -/
theorem dropWhile_of_head_false {p : Char → Bool} {l : List Char}
    (h : ∀ x ∈ l, p x = false) : l.dropWhile p = l := by
  cases l with
  | nil => rfl
  | cons y ys =>
    rw [List.dropWhile_cons, h y (List.mem_cons_self y ys)]
    simp

/-- Replacing a character that does not occur is the identity. -/
theorem jsReplaceChar_of_not_mem {c : Char} {r l : List Char}
    (h : ∀ x ∈ l, x ≠ c) : jsReplaceChar c r l = l := by
  induction l with
  | nil => rfl
  | cons y ys ih =>
    simp only [jsReplaceChar]
    rw [if_neg (h y (List.mem_cons_self y ys)),
      ih (fun x hx => h x (List.mem_cons_of_mem y hx))]
    rfl

/-- Trimming a pure-letter string is the identity. -/
theorem jsTrimList_replicate :
    jsTrimList (List.replicate 10001 'a') = List.replicate 10001 'a' := by
  have hmem : ∀ x ∈ List.replicate 10001 'a', jsIsWhite x = false := by
    intro x hx
    rw [List.eq_of_mem_replicate hx]
    rfl
  unfold jsTrimList
  rw [dropWhile_of_head_false hmem, List.reverse_replicate,
    dropWhile_of_head_false hmem, List.reverse_replicate]

/-! ## Claim C1 -/

/-- C1 counterexample: the claim asserts waits of 1 s between the first and
second attempt and 2 s between the second and third. For the concrete
valid, non-spam request `goodReq` with an always-failing provider, the
handler does make exactly 3 calls and does surface HTTP 500, but the waits
are 2000 ms and 4000 ms, not 1000 ms and 2000 ms: the source sleeps
`Math.pow(2, retryCount) * 1000` after `retryCount` has been incremented. -/
theorem c1_counterexample :
    (handleFetch goodReq envNoKV 0 "2026-01-01T00:00:00.000Z"
        (fun _ => false)).status = 500 ∧
    (handleFetch goodReq envNoKV 0 "2026-01-01T00:00:00.000Z"
        (fun _ => false)).emailCalls = 3 ∧
    (handleFetch goodReq envNoKV 0 "2026-01-01T00:00:00.000Z"
        (fun _ => false)).waits = [2000, 4000] ∧
    ([2000, 4000] : List Nat) ≠ [1000, 2000] := by
  refine ⟨rfl, rfl, rfl, by decide⟩

/-! ## Claim C2 -/

/-- C2 counterexample: the claim asserts the 429's `Retry-After` (and the
`retryAfter` body field) equal the seconds remaining until the current
window resets. Concretely: the window for `goodReq`'s address was opened at
time 0 with a one-hour TTL (stored expiry 3 600 000 ms) and the counter
stands at 5; the 6th request arrives at `now = 3 000 000 ms`, so 600
seconds remain until the stored window expires — yet the handler reports
3600 seconds, because the source computes `resetTime` as a fresh
`Date.now() + 60*60*1000` instead of consulting the stored expiry. -/
theorem c2_counterexample :
    kvLookup cfgAtLimit.entries (rlKey goodReq.clientIP) =
      some ⟨"5", 3600000⟩ ∧
    (3600000 - 3000000) / 1000 = 600 ∧
    (handleFetch goodReq envAtLimit 3000000 "2026-01-01T00:00:00.000Z"
        (fun _ => true)).status = 429 ∧
    (handleFetch goodReq envAtLimit 3000000 "2026-01-01T00:00:00.000Z"
        (fun _ => true)).body =
      some ⟨false, "Too many requests. Please try again later.", [],
        some 3600⟩ ∧
    (handleFetch goodReq envAtLimit 3000000 "2026-01-01T00:00:00.000Z"
        (fun _ => true)).retryAfterHeader = some "3600" ∧
    (3600 : Nat) ≠ 600 := by
  refine ⟨rfl, rfl, rfl, rfl, rfl, by decide⟩

/-! ## Claim C3 -/

/-- C3: the claim says every message longer than 20 characters consisting
entirely of upper-case letters is classified as spam by `detectSpam`. The
25-letter all-caps message `ABCDEFGHIJKLMNOPQRSTUVWXY` satisfies the
claim's precondition (third conjunct), yet the server-side
`RateLimiter.detectSpam` returns `false` for it (first conjunct), because
the source lower-cases the message before comparing it with its upper-cased
form; the client-side `SpamProtection.detectSpam`, which compares the
original message, returns `true` as specified (second conjunct).
 Consequently a submission carrying this message is delivered rather than
silently suppressed (fourth conjunct: one outbound provider call). -/
theorem c3_allcaps_divergence :
    detectSpam ⟨none, none, none, none,
        some "ABCDEFGHIJKLMNOPQRSTUVWXY", "", ""⟩ = false ∧
    clientDetectSpam (.str "ABCDEFGHIJKLMNOPQRSTUVWXY") = true ∧
    ("ABCDEFGHIJKLMNOPQRSTUVWXY".toList.length > 20 ∧
      jsToUpper "ABCDEFGHIJKLMNOPQRSTUVWXY" = "ABCDEFGHIJKLMNOPQRSTUVWXY" ∧
      "ABCDEFGHIJKLMNOPQRSTUVWXY".toList.all Char.isUpper = true) ∧
    (handleFetch capsReq envNoKV 0 "2026-01-01T00:00:00.000Z"
        (fun _ => true)).emailCalls = 1 := by
  refine ⟨rfl, rfl, by decide, rfl⟩

/-! ## Claim C6 -/

/-- C6: the claim says `validateContactForm` never throws, treating a
non-string value as merely failing the required check. A truthy non-string
phone value refutes this: `isValidPhone` evaluates `phone.trim()` before
its `typeof` guard, so the number `5551234` raises a TypeError and
`validateContactForm` throws (first conjunct). The same non-string value in
a different field is handled without throwing (second conjunct: a numeric
first name just yields its required error), so the throw is specific to the
phone block, and the thrown error escapes the handler as an HTTP 500
(third conjunct). -/
theorem c6_phone_typeerror :
    validateContactForm badPhoneForm "2026-01-01T00:00:00.000Z" =
      .error () ∧
    validateContactForm
      { badPhoneForm with
        firstName := .num 7
        phone := .undef } "2026-01-01T00:00:00.000Z" =
      .ok { isValid := false, errors := ["First name is required"],
            data := { firstName := none, lastName := some "Doe",
                      email := some "john@example.com", phone := some "",
                      message := some "Hello there my friend",
                      timestamp := "2026-01-01T00:00:00.000Z",
                      source := "website_contact_form" } } ∧
    (handleFetch { goodReq with jsonBody := .ok badPhoneForm } envNoKV 0
        "2026-01-01T00:00:00.000Z" (fun _ => true)).status = 500 := by
  refine ⟨rfl, rfl, rfl⟩


/-! ## Claim C1 (amended) -/

/-- C1 as amended: when every provider call fails, the handler makes exactly
3 delivery attempts in total, waiting 2 seconds between the first and second
attempt and 4 seconds between the second and third; the failure is surfaced
to the caller as HTTP 500 with the generic error body, and no fourth
outbound call is made. -/
theorem c1_delivery_retry (req : ReqModel) (env : Env) (now : Nat)
    (nowISO : String) (provider : Nat → Bool) (d : FormData) (v : VResult)
    (key : String)
    (hm : req.method = "POST")
    (hu : strIncludes req.url "/api/contact" = true)
    (hs : sizeExceeded req = false)
    (hrl : (checkRateLimit req.clientIP env.rateLimitKV now).1.allowed = true)
    (hp : parseBody req = .ok d)
    (hv : validateContactForm d nowISO = .ok v)
    (hvalid : v.isValid = true)
    (hspam : detectSpam v.data = false)
    (hkey : env.resendApiKey = some key)
    (hfail : ∀ i, provider i = false) :
    (handleFetch req env now nowISO provider).status = 500 ∧
    (handleFetch req env now nowISO provider).body = some internalErrorBody ∧
    (handleFetch req env now nowISO provider).emailCalls = 3 ∧
    (handleFetch req env now nowISO provider).waits = [2000, 4000] := by
  have hloop := emailRetryLoop_allFail provider (hfail 0) (hfail 1) (hfail 2)
  refine ⟨?_, ?_, ?_, ?_⟩ <;>
    simp [handleFetch, hm, hu, hs, hrl, hp, hv, hvalid, hspam, hkey, hloop]

/-- Witness for C1: the request `goodReq` against an always-failing provider
realizes every hypothesis of `c1_delivery_retry`. -/
theorem c1_delivery_retry_witness :
    (handleFetch goodReq envNoKV 0 "2026-01-01T00:00:00.000Z"
        (fun _ => false)).status = 500 ∧
    (handleFetch goodReq envNoKV 0 "2026-01-01T00:00:00.000Z"
        (fun _ => false)).emailCalls = 3 ∧
    (handleFetch goodReq envNoKV 0 "2026-01-01T00:00:00.000Z"
        (fun _ => false)).waits = [2000, 4000] := by
  have h := c1_delivery_retry goodReq envNoKV 0 "2026-01-01T00:00:00.000Z"
    (fun _ => false) goodForm goodValidated "re_key"
    rfl rfl rfl rfl rfl rfl rfl rfl rfl (fun _ => rfl)
  exact ⟨h.1, h.2.2.1, h.2.2.2⟩

/-! ## Claim C2 (amended) -/

/-- C2 as amended: whenever the stored counter for the client's address is
readable, unexpired and at least 5, `checkRateLimit` returns
`allowed = false` with `remaining = 0`, and the handler terminates with
HTTP 429 whose `Retry-After` header and `retryAfter` body field are both
3600 seconds — one full hour measured from the rejected request — rather
than the seconds remaining until the stored window expires. -/
theorem c2_rate_limit_reject (req : ReqModel) (env : Env) (now : Nat)
    (nowISO : String) (provider : Nat → Bool) (cfg : KVConfig)
    (e : KVEntry) (n : Int)
    (hm : req.method = "POST")
    (hu : strIncludes req.url "/api/contact" = true)
    (hs : sizeExceeded req = false)
    (hk : env.rateLimitKV = some cfg)
    (hgf : cfg.getFails = false)
    (hlook : kvLookup cfg.entries (rlKey req.clientIP) = some e)
    (hexp : now < e.expireAt)
    (hparse : jsParseInt e.value = some n)
    (hge : (5 : Int) ≤ n) :
    (checkRateLimit req.clientIP env.rateLimitKV now).1 =
      ⟨false, some 0, now + 3600000⟩ ∧
    (handleFetch req env now nowISO provider).status = 429 ∧
    (handleFetch req env now nowISO provider).body =
      some ⟨false, "Too many requests. Please try again later.", [],
        some 3600⟩ ∧
    (handleFetch req env now nowISO provider).retryAfterHeader =
      some "3600" := by
  have hne : e.value ≠ "" := by
    intro h
    rw [h] at hparse
    have h0 : jsParseInt "" = none := rfl
    rw [h0] at hparse
    exact Option.noConfusion hparse
  have hcrl : checkRateLimit req.clientIP env.rateLimitKV now =
      (⟨false, some 0, now + 3600000⟩, some cfg) := by
    rw [hk]
    exact crl_reject req.clientIP now cfg e n hgf hlook hexp hparse hne hge
  refine ⟨by rw [hcrl], ?_, ?_, ?_⟩ <;>
    (simp [handleFetch, hm, hu, hs, hcrl, Nat.add_sub_cancel_left]
     try decide)

/-- Witness for C2: the 6th request from `goodReq`'s address against the
at-limit store realizes every hypothesis of `c2_rate_limit_reject`. -/
theorem c2_rate_limit_reject_witness :
    (3000000 : Nat) < 3600000 ∧
    (checkRateLimit goodReq.clientIP envAtLimit.rateLimitKV 3000000).1 =
      ⟨false, some 0, 3000000 + 3600000⟩ ∧
    (handleFetch goodReq envAtLimit 3000000 "2026-01-01T00:00:00.000Z"
        (fun _ => true)).status = 429 ∧
    (handleFetch goodReq envAtLimit 3000000 "2026-01-01T00:00:00.000Z"
        (fun _ => true)).retryAfterHeader = some "3600" := by
  have h := c2_rate_limit_reject goodReq envAtLimit 3000000
    "2026-01-01T00:00:00.000Z" (fun _ => true) cfgAtLimit ⟨"5", 3600000⟩ 5
    rfl rfl rfl rfl rfl rfl (by decide) rfl (by decide)
  exact ⟨by decide, h.1, h.2.1, h.2.2.2⟩

/-! ## Claim C4 -/

/-- C4: every submission that passes validation but is flagged by the spam
heuristic terminates with HTTP 200 reporting `success = true` and the
"Message received successfully" text, and no outbound email-provider call is
made. -/
theorem c4_spam_silent_success (req : ReqModel) (env : Env) (now : Nat)
    (nowISO : String) (provider : Nat → Bool) (d : FormData) (v : VResult)
    (hm : req.method = "POST")
    (hu : strIncludes req.url "/api/contact" = true)
    (hs : sizeExceeded req = false)
    (hrl : (checkRateLimit req.clientIP env.rateLimitKV now).1.allowed = true)
    (hp : parseBody req = .ok d)
    (hv : validateContactForm d nowISO = .ok v)
    (hvalid : v.isValid = true)
    (hspam : detectSpam v.data = true) :
    (handleFetch req env now nowISO provider).status = 200 ∧
    (handleFetch req env now nowISO provider).body =
      some ⟨true, "Message received successfully", [], none⟩ ∧
    (handleFetch req env now nowISO provider).emailCalls = 0 := by
  refine ⟨?_, ?_, ?_⟩ <;>
    simp [handleFetch, hm, hu, hs, hrl, hp, hv, hvalid, hspam]

/-- Witness for C4: the valid "free money" submission realizes every
hypothesis of `c4_spam_silent_success`. -/
theorem c4_spam_silent_success_witness :
    detectSpam spamValidated.data = true ∧
    (handleFetch spamReq envNoKV 0 "2026-01-01T00:00:00.000Z"
        (fun _ => true)).status = 200 ∧
    (handleFetch spamReq envNoKV 0 "2026-01-01T00:00:00.000Z"
        (fun _ => true)).emailCalls = 0 := by
  have h := c4_spam_silent_success spamReq envNoKV 0
    "2026-01-01T00:00:00.000Z" (fun _ => true) spamForm spamValidated
    rfl rfl rfl rfl rfl rfl rfl rfl
  exact ⟨rfl, h.1, h.2.2⟩

/-! ## Claim C5 -/

/-- C5: if the counter store is unreachable (`get` throws) or the store
write throws on the increment path, `checkRateLimit` fails open, returning
`allowed = true` with `remaining = 4`, and the handler never answers 429 for
such a request. -/
theorem c5_fail_open (req : ReqModel) (env : Env) (now : Nat)
    (nowISO : String) (provider : Nat → Bool) (cfg : KVConfig)
    (hk : env.rateLimitKV = some cfg)
    (hfail : cfg.getFails = true ∨
      (cfg.putFails = true ∧
        rlCountBelowMax (rlStoredCount cfg now (rlKey req.clientIP))
          = true)) :
    (checkRateLimit req.clientIP env.rateLimitKV now).1 =
      ⟨true, some 4, now + 3600000⟩ ∧
    (handleFetch req env now nowISO provider).status ≠ 429 := by
  have hcrl : checkRateLimit req.clientIP env.rateLimitKV now =
      (⟨true, some 4, now + 3600000⟩, env.rateLimitKV) := by
    rw [hk]
    rcases hfail with hgf | ⟨hpf, hbelow⟩
    · simp [checkRateLimit, kvGet, hgf]
    · by_cases hgf : cfg.getFails = true
      · simp [checkRateLimit, kvGet, hgf]
      · simp only [Bool.not_eq_true] at hgf
        simp only [rlCountBelowMax, rlStoredCount] at hbelow
        simp only [checkRateLimit, kvGet, hgf, Bool.false_eq_true, if_false]
        generalize (match kvLookup cfg.entries (rlKey req.clientIP) with
          | some e => if now < e.expireAt then some e.value else none
          | none => none) = cc at hbelow ⊢
        match cc with
        | none => simp [kvPut, hpf]
        | some str =>
          by_cases hse : str = ""
          · simp [hse, kvPut, hpf]
          · simp only [hse, if_false] at hbelow ⊢
            match hps : jsParseInt str with
            | none => simp [hps, kvPut, hpf]
            | some m =>
              rw [hps] at hbelow
              have hm5 : m < 5 := of_decide_eq_true hbelow
              simp [hps, kvPut, hpf,
                decide_eq_false (by omega : ¬((5 : Int) ≤ m))]
  refine ⟨by rw [hcrl], ?_⟩
  unfold handleFetch
  repeat' split
  all_goals simp_all [hcrl]

/-- Witness for C5: the unreachable store realizes the hypotheses of
`c5_fail_open`. -/
theorem c5_fail_open_witness :
    cfgUnreachable.getFails = true ∧
    (checkRateLimit goodReq.clientIP envUnreachable.rateLimitKV 0).1 =
      ⟨true, some 4, 0 + 3600000⟩ ∧
    (handleFetch goodReq envUnreachable 0 "2026-01-01T00:00:00.000Z"
        (fun _ => true)).status ≠ 429 := by
  have h := c5_fail_open goodReq envUnreachable 0 "2026-01-01T00:00:00.000Z"
    (fun _ => true) cfgUnreachable rfl (Or.inl rfl)
  exact ⟨rfl, h.1, h.2⟩

/-! ## Claim C7 -/

/-- C7: for every input on which `validateContactForm` returns (rather than
throws) with one or more required fields missing, the result has
`isValid = false`, and each missing required field contributes exactly one
"is required" error — never its length- or format-rule errors, and with no
sanitized value recorded for it — while the failing fields are all collected
together rather than short-circuited (the per-field counts hold
simultaneously for however many fields are missing). -/
theorem c7_missing_required (d : FormData) (nowISO : String) (r : VResult)
    (hv : validateContactForm d nowISO = .ok r)
    (hmiss : isRequired d.firstName = false ∨ isRequired d.lastName = false ∨
      isRequired d.email = false ∨ isRequired d.message = false) :
    r.isValid = false ∧
    (isRequired d.firstName = false →
      r.errors.count "First name is required" = 1 ∧
      r.errors.count "First name must be at least 2 characters long" = 0 ∧
      r.errors.count "First name must be less than 50 characters" = 0 ∧
      r.data.firstName = none) ∧
    (isRequired d.lastName = false →
      r.errors.count "Last name is required" = 1 ∧
      r.errors.count "Last name must be at least 2 characters long" = 0 ∧
      r.errors.count "Last name must be less than 50 characters" = 0 ∧
      r.data.lastName = none) ∧
    (isRequired d.email = false →
      r.errors.count "Email is required" = 1 ∧
      r.errors.count "Please enter a valid email address" = 0 ∧
      r.data.email = none) ∧
    (isRequired d.message = false →
      r.errors.count "Message is required" = 1 ∧
      r.errors.count "Message must be at least 10 characters long" = 0 ∧
      r.errors.count "Message must be less than 5000 characters" = 0 ∧
      r.data.message = none) := by
  cases hpc : phoneCheck d with
  | error e => unfold validateContactForm at hv; rw [hpc] at hv; cases hv
  | ok p =>
    unfold validateContactForm at hv
    rw [hpc] at hv
    simp only [Except.ok.injEq] at hv
    subst hv
    refine ⟨?_, ?_, ?_, ?_, ?_⟩
    · show (List.length _ == 0) = false
      rcases hmiss with h | h | h | h <;>
        simp [firstNameErrors, lastNameErrors, emailErrors, messageErrors, h,
          List.length_append]
    · intro h
      have hb : firstNameErrors d = ["First name is required"] := by
        simp [firstNameErrors, h]
      refine ⟨?_, ?_, ?_,
        by show firstNameSanitized d = none; simp [firstNameSanitized, h]⟩
      · show (firstNameErrors d ++ lastNameErrors d ++ emailErrors d ++ p.1
          ++ messageErrors d).count "First name is required" = 1
        simp only [List.count_append, hb,
          count_lastNameErrors_zero d "First name is required" (by decide),
          count_emailErrors_zero d "First name is required" (by decide),
          count_messageErrors_zero d "First name is required" (by decide),
          count_phoneCheck_errs_zero hpc "First name is required" (by decide)]
        decide
      · show (firstNameErrors d ++ lastNameErrors d ++ emailErrors d ++ p.1
          ++ messageErrors d).count "First name must be at least 2 characters long" = 0
        simp only [List.count_append, hb,
          count_lastNameErrors_zero d "First name must be at least 2 characters long" (by decide),
          count_emailErrors_zero d "First name must be at least 2 characters long" (by decide),
          count_messageErrors_zero d "First name must be at least 2 characters long" (by decide),
          count_phoneCheck_errs_zero hpc "First name must be at least 2 characters long" (by decide)]
        decide
      · show (firstNameErrors d ++ lastNameErrors d ++ emailErrors d ++ p.1
          ++ messageErrors d).count "First name must be less than 50 characters" = 0
        simp only [List.count_append, hb,
          count_lastNameErrors_zero d "First name must be less than 50 characters" (by decide),
          count_emailErrors_zero d "First name must be less than 50 characters" (by decide),
          count_messageErrors_zero d "First name must be less than 50 characters" (by decide),
          count_phoneCheck_errs_zero hpc "First name must be less than 50 characters" (by decide)]
        decide
    · intro h
      have hb : lastNameErrors d = ["Last name is required"] := by
        simp [lastNameErrors, h]
      refine ⟨?_, ?_, ?_,
        by show lastNameSanitized d = none; simp [lastNameSanitized, h]⟩
      · show (firstNameErrors d ++ lastNameErrors d ++ emailErrors d ++ p.1
          ++ messageErrors d).count "Last name is required" = 1
        simp only [List.count_append, hb,
          count_firstNameErrors_zero d "Last name is required" (by decide),
          count_emailErrors_zero d "Last name is required" (by decide),
          count_messageErrors_zero d "Last name is required" (by decide),
          count_phoneCheck_errs_zero hpc "Last name is required" (by decide)]
        decide
      · show (firstNameErrors d ++ lastNameErrors d ++ emailErrors d ++ p.1
          ++ messageErrors d).count "Last name must be at least 2 characters long" = 0
        simp only [List.count_append, hb,
          count_firstNameErrors_zero d "Last name must be at least 2 characters long" (by decide),
          count_emailErrors_zero d "Last name must be at least 2 characters long" (by decide),
          count_messageErrors_zero d "Last name must be at least 2 characters long" (by decide),
          count_phoneCheck_errs_zero hpc "Last name must be at least 2 characters long" (by decide)]
        decide
      · show (firstNameErrors d ++ lastNameErrors d ++ emailErrors d ++ p.1
          ++ messageErrors d).count "Last name must be less than 50 characters" = 0
        simp only [List.count_append, hb,
          count_firstNameErrors_zero d "Last name must be less than 50 characters" (by decide),
          count_emailErrors_zero d "Last name must be less than 50 characters" (by decide),
          count_messageErrors_zero d "Last name must be less than 50 characters" (by decide),
          count_phoneCheck_errs_zero hpc "Last name must be less than 50 characters" (by decide)]
        decide
    · intro h
      have hb : emailErrors d = ["Email is required"] := by
        simp [emailErrors, h]
      refine ⟨?_, ?_,
        by show emailSanitized d = none; simp [emailSanitized, h]⟩
      · show (firstNameErrors d ++ lastNameErrors d ++ emailErrors d ++ p.1
          ++ messageErrors d).count "Email is required" = 1
        simp only [List.count_append, hb,
          count_firstNameErrors_zero d "Email is required" (by decide),
          count_lastNameErrors_zero d "Email is required" (by decide),
          count_messageErrors_zero d "Email is required" (by decide),
          count_phoneCheck_errs_zero hpc "Email is required" (by decide)]
        decide
      · show (firstNameErrors d ++ lastNameErrors d ++ emailErrors d ++ p.1
          ++ messageErrors d).count "Please enter a valid email address" = 0
        simp only [List.count_append, hb,
          count_firstNameErrors_zero d "Please enter a valid email address" (by decide),
          count_lastNameErrors_zero d "Please enter a valid email address" (by decide),
          count_messageErrors_zero d "Please enter a valid email address" (by decide),
          count_phoneCheck_errs_zero hpc "Please enter a valid email address" (by decide)]
        decide
    · intro h
      have hb : messageErrors d = ["Message is required"] := by
        simp [messageErrors, h]
      refine ⟨?_, ?_, ?_,
        by show messageSanitized d = none; simp [messageSanitized, h]⟩
      · show (firstNameErrors d ++ lastNameErrors d ++ emailErrors d ++ p.1
          ++ messageErrors d).count "Message is required" = 1
        simp only [List.count_append, hb,
          count_firstNameErrors_zero d "Message is required" (by decide),
          count_lastNameErrors_zero d "Message is required" (by decide),
          count_emailErrors_zero d "Message is required" (by decide),
          count_phoneCheck_errs_zero hpc "Message is required" (by decide)]
        decide
      · show (firstNameErrors d ++ lastNameErrors d ++ emailErrors d ++ p.1
          ++ messageErrors d).count "Message must be at least 10 characters long" = 0
        simp only [List.count_append, hb,
          count_firstNameErrors_zero d "Message must be at least 10 characters long" (by decide),
          count_lastNameErrors_zero d "Message must be at least 10 characters long" (by decide),
          count_emailErrors_zero d "Message must be at least 10 characters long" (by decide),
          count_phoneCheck_errs_zero hpc "Message must be at least 10 characters long" (by decide)]
        decide
      · show (firstNameErrors d ++ lastNameErrors d ++ emailErrors d ++ p.1
          ++ messageErrors d).count "Message must be less than 5000 characters" = 0
        simp only [List.count_append, hb,
          count_firstNameErrors_zero d "Message must be less than 5000 characters" (by decide),
          count_lastNameErrors_zero d "Message must be less than 5000 characters" (by decide),
          count_emailErrors_zero d "Message must be less than 5000 characters" (by decide),
          count_phoneCheck_errs_zero hpc "Message must be less than 5000 characters" (by decide)]
        decide

/-- Witness for C7: the all-empty submission realizes every hypothesis of
`c7_missing_required`. -/
theorem c7_missing_required_witness :
    isRequired emptyForm.firstName = false ∧
    emptyValidated.isValid = false ∧
    emptyValidated.errors.count "First name is required" = 1 ∧
    emptyValidated.errors.count "Message is required" = 1 := by
  have h := c7_missing_required emptyForm "2026-01-01T00:00:00.000Z"
    emptyValidated rfl (Or.inl rfl)
  exact ⟨rfl, h.1, (h.2.1 rfl).1, (h.2.2.2.2 rfl).1⟩

/-! ## Claim C8 -/

/-- C8 counterexample: the claim bounds the sanitized length by 10,000 for
every string input of `sanitizeInput`, citing both variants; but the
client-side `FormValidator.sanitizeInput` applies no truncation, so a
10,001-character input is returned at full length 10,001 > 10,000. -/
theorem c8_counterexample :
    (clientSanitizeInput
      (String.mk (List.replicate 10001 'a'))).toList.length = 10001 ∧
    10001 > 10000 := by
  refine ⟨?_, by decide⟩
  have hne : String.mk (List.replicate 10001 'a') ≠ "" := by
    intro h
    have hd : List.replicate 10001 'a' = [] := congrArg String.data h
    have hlen := congrArg List.length hd
    rw [List.length_replicate] at hlen
    cases hlen
  have hnc : ∀ (c : Char), c ≠ 'a' →
      ∀ x ∈ List.replicate 10001 'a', x ≠ c := by
    intro c hc x hx
    rw [List.eq_of_mem_replicate hx]
    exact fun h => hc h.symm
  simp only [clientSanitizeInput, hne, if_false]
  rw [show (String.mk (List.replicate 10001 'a')).toList
      = List.replicate 10001 'a' from rfl]
  rw [jsTrimList_replicate,
    jsReplaceChar_of_not_mem (hnc '<' (by decide)),
    jsReplaceChar_of_not_mem (hnc '>' (by decide)),
    jsReplaceChar_of_not_mem (hnc '"' (by decide)),
    jsReplaceChar_of_not_mem (hnc '\'' (by decide)),
    jsReplaceChar_of_not_mem (hnc '/' (by decide))]
  rw [show (String.mk (List.replicate 10001 'a')).toList
      = List.replicate 10001 'a' from rfl]
  exact List.length_replicate 10001 'a'

/-- C8 as amended: for every string input the server
`ServerValidator.sanitizeInput` returns a string of length at most 10,000
containing no literal `<`, `>`, `"`, `'`, `/` or backslash (the replacement
strings never reintroduce an escape target); the client
`FormValidator.sanitizeInput` likewise eliminates `<`, `>`, `"`, `'`, `/`
but imposes no length cap and does not escape backslash. -/
theorem c8_sanitize_bounds (s : String) :
    (sanitizeInput (.str s)).toList.length ≤ 10000 ∧
    (∀ c ∈ (sanitizeInput (.str s)).toList,
      c ≠ '<' ∧ c ≠ '>' ∧ c ≠ '"' ∧ c ≠ '\'' ∧ c ≠ '/' ∧ c ≠ '\\') ∧
    (∀ c ∈ (clientSanitizeInput s).toList,
      c ≠ '<' ∧ c ≠ '>' ∧ c ≠ '"' ∧ c ≠ '\'' ∧ c ≠ '/') := by
  refine ⟨?_, ?_, ?_⟩
  · by_cases hse : s = ""
    · simp [sanitizeInput, hse]
    · simp only [sanitizeInput, hse, if_false]
      show (List.take 10000 _).length ≤ 10000
      simp [List.length_take]
  · intro c hc
    by_cases hse : s = ""
    · simp [sanitizeInput, hse] at hc
    · simp only [sanitizeInput, hse, if_false] at hc
      replace hc := List.take_subset 10000 _ hc
      rcases mem_jsReplaceChar hc with h | ⟨hc, h6⟩
      · have hmem : c ∈ ['&', '#', 'x', '5', 'C', ';'] := h
        fin_cases hmem <;> decide
      rcases mem_jsReplaceChar hc with h | ⟨hc, h5⟩
      · have hmem : c ∈ ['&', '#', 'x', '2', 'F', ';'] := h
        fin_cases hmem <;> decide
      rcases mem_jsReplaceChar hc with h | ⟨hc, h4⟩
      · have hmem : c ∈ ['&', '#', 'x', '2', '7', ';'] := h
        fin_cases hmem <;> decide
      rcases mem_jsReplaceChar hc with h | ⟨hc, h3⟩
      · have hmem : c ∈ ['&', 'q', 'u', 'o', 't', ';'] := h
        fin_cases hmem <;> decide
      rcases mem_jsReplaceChar hc with h | ⟨hc, h2⟩
      · have hmem : c ∈ ['&', 'g', 't', ';'] := h
        fin_cases hmem <;> decide
      rcases mem_jsReplaceChar hc with h | ⟨hc, h1⟩
      · have hmem : c ∈ ['&', 'l', 't', ';'] := h
        fin_cases hmem <;> decide
      exact ⟨h1, h2, h3, h4, h5, h6⟩
  · intro c hc
    by_cases hse : s = ""
    · simp [clientSanitizeInput, hse] at hc
    · simp only [clientSanitizeInput, hse, if_false] at hc
      rcases mem_jsReplaceChar hc with h | ⟨hc, h5⟩
      · have hmem : c ∈ ['&', '#', 'x', '2', 'F', ';'] := h
        fin_cases hmem <;> decide
      rcases mem_jsReplaceChar hc with h | ⟨hc, h4⟩
      · have hmem : c ∈ ['&', '#', 'x', '2', '7', ';'] := h
        fin_cases hmem <;> decide
      rcases mem_jsReplaceChar hc with h | ⟨hc, h3⟩
      · have hmem : c ∈ ['&', 'q', 'u', 'o', 't', ';'] := h
        fin_cases hmem <;> decide
      rcases mem_jsReplaceChar hc with h | ⟨hc, h2⟩
      · have hmem : c ∈ ['&', 'g', 't', ';'] := h
        fin_cases hmem <;> decide
      rcases mem_jsReplaceChar hc with h | ⟨hc, h1⟩
      · have hmem : c ∈ ['&', 'l', 't', ';'] := h
        fin_cases hmem <;> decide
      exact ⟨h1, h2, h3, h4, h5⟩

/-- Witness for C8: the escaped form of `"<script>"` contains `'&'`, which
discharges the membership hypothesis of `c8_sanitize_bounds` at a concrete
character. -/
theorem c8_sanitize_bounds_witness :
    '&' ∈ (sanitizeInput (.str "<script>")).toList ∧
    ('&' ≠ '<' ∧ '&' ≠ '>' ∧ '&' ≠ '"' ∧ '&' ≠ '\'' ∧ '&' ≠ '/' ∧
      '&' ≠ '\\') :=
  ⟨by decide, (c8_sanitize_bounds "<script>").2.1 '&' (by decide)⟩

/-! ## Claim C9 -/

/-- C9: when the email credential is absent, a validated non-spam submission
terminates with HTTP 500 carrying only the generic error body (the
configuration error is thrown and mapped by the outer catch), and no
outbound email call is attempted. -/
theorem c9_missing_credential (req : ReqModel) (env : Env) (now : Nat)
    (nowISO : String) (provider : Nat → Bool) (d : FormData) (v : VResult)
    (hm : req.method = "POST")
    (hu : strIncludes req.url "/api/contact" = true)
    (hs : sizeExceeded req = false)
    (hrl : (checkRateLimit req.clientIP env.rateLimitKV now).1.allowed = true)
    (hp : parseBody req = .ok d)
    (hv : validateContactForm d nowISO = .ok v)
    (hvalid : v.isValid = true)
    (hspam : detectSpam v.data = false)
    (hkey : env.resendApiKey = none) :
    (handleFetch req env now nowISO provider).status = 500 ∧
    (handleFetch req env now nowISO provider).body = some internalErrorBody ∧
    (handleFetch req env now nowISO provider).emailCalls = 0 := by
  refine ⟨?_, ?_, ?_⟩ <;>
    simp [handleFetch, hm, hu, hs, hrl, hp, hv, hvalid, hspam, hkey]

/-- Witness for C9: the good submission against a credential-less
environment realizes every hypothesis of `c9_missing_credential`. -/
theorem c9_missing_credential_witness :
    envNoKey.resendApiKey = none ∧
    (handleFetch goodReq envNoKey 0 "2026-01-01T00:00:00.000Z"
        (fun _ => true)).status = 500 ∧
    (handleFetch goodReq envNoKey 0 "2026-01-01T00:00:00.000Z"
        (fun _ => true)).emailCalls = 0 := by
  have h := c9_missing_credential goodReq envNoKey 0
    "2026-01-01T00:00:00.000Z" (fun _ => true) goodForm goodValidated
    rfl rfl rfl rfl rfl rfl rfl rfl rfl
  exact ⟨rfl, h.1, h.2.2⟩

/-! ## Claim C10 -/

/-- C10: whenever `validateContactForm` returns, its data object carries the
server-assigned timestamp and the fixed source tag
`website_contact_form` — also when validation failed. -/
theorem c10_metadata (d : FormData) (nowISO : String) (r : VResult)
    (hv : validateContactForm d nowISO = .ok r) :
    r.data.timestamp = nowISO ∧ r.data.source = "website_contact_form" := by
  cases hpc : phoneCheck d with
  | error e => unfold validateContactForm at hv; rw [hpc] at hv; cases hv
  | ok p =>
    unfold validateContactForm at hv
    rw [hpc] at hv
    simp only [Except.ok.injEq] at hv
    subst hv
    exact ⟨rfl, rfl⟩

/-- Witness for C10: the all-empty submission — every per-field check failed
— realizes the hypothesis of `c10_metadata`. -/
theorem c10_metadata_witness :
    emptyValidated.isValid = false ∧
    emptyValidated.data.timestamp = "2026-01-01T00:00:00.000Z" ∧
    emptyValidated.data.source = "website_contact_form" := by
  have h := c10_metadata emptyForm "2026-01-01T00:00:00.000Z"
    emptyValidated rfl
  exact ⟨rfl, h.1, h.2⟩

end Vabyanna
